import Mathlib

/-!
Verification development for the CPA-005 encoding engine of the rbc-ach
repository (reference implementation: `src/electron/ach-converter.js`).

The JavaScript source is shallowly embedded as follows:
* a JavaScript cell value (the result of the worksheet `cell` helper) is a
  `JSVal`: `null`, a number (modelled as an exact rational; the IEEE-754
  double representation is not modelled), or a string;
* `String.prototype.repeat`, which throws a `RangeError` for a negative
  count, is `jsRepeat : Char → Int → Option String` (`none` = throw);
* the `Formatter` static methods return `Option String`, `none` standing
  for a thrown exception (negative `repeat` count, or `.toString` /
  `.toFixed` called on a value without the method);
* a `moment` value is either a valid calendar date (year and 1-based day
  of year) or the invalid moment, whose `format` renders `"Invalid date"`;
* the `writeACHFile` driver is split into the record-building pass
  (`writeACHFile`, producing the header, detail records and trailer) and
  the rendering pass (`renderRun`, producing the file text).
-/

namespace ACH

/-- A JavaScript value as returned by the worksheet `cell` helper:
`null` for an absent cell, a number, or an (already trimmed) string. -/
inductive JSVal where
  | vnull : JSVal
  | vnum : ℚ → JSVal
  | vstr : String → JSVal
deriving DecidableEq

/-- JavaScript `c.repeat(count)` for a single-character string `c`:
throws a `RangeError` (here `none`) when `count` is negative. -/
def jsRepeat (c : Char) (k : Int) : Option String :=
  if k < 0 then none else some (String.mk (List.replicate k.toNat c))

/-- The constant string `"0".repeat(n)` for a non-negative literal `n`. -/
def zeros (n : Nat) : String := String.mk (List.replicate n '0')

/-- The constant string `" ".repeat(n)` for a non-negative literal `n`. -/
def spaces (n : Nat) : String := String.mk (List.replicate n ' ')

/-- The decimal digit character for `n % 10`. -/
def digitChar (n : Nat) : Char := Char.ofNat (48 + n % 10)

/-- Decimal digits of a natural number, most significant first
(fuelled structural recursion so that terms evaluate by `rfl`). -/
def natToCharsAux : Nat → Nat → List Char
  | 0, _ => []
  | f + 1, n =>
    if n < 10 then [digitChar n]
    else natToCharsAux f (n / 10) ++ [digitChar (n % 10)]

/-- JavaScript decimal rendering of a non-negative integer. -/
def natToString (n : Nat) : String := String.mk (natToCharsAux (n + 1) n)

/-- JavaScript decimal rendering of an integer. -/
def intToString (i : Int) : String :=
  if i < 0 then "-" ++ natToString i.natAbs else natToString i.natAbs

/-- Fractional decimal digits of a rational in `[0, 1)`, up to 20 digits
(JavaScript prints at most 17 significant digits of a double). -/
def fracCharsAux : Nat → ℚ → List Char
  | 0, _ => []
  | f + 1, q =>
    if q = 0 then []
    else
      let d : Nat := (Int.floor (q * 10)).toNat
      digitChar d :: fracCharsAux f (q * 10 - (d : ℚ))

/-- JavaScript `Number.prototype.toString` on the modelled (exact
rational) value: integer values print as plain decimal digits,
non-integer values as a decimal expansion. -/
def jsNumToString (q : ℚ) : String :=
  if q.den = 1 then intToString q.num
  else
    (if q < 0 then "-" else "")
      ++ natToString (Int.floor |q|).toNat
      ++ "."
      ++ String.mk (fracCharsAux 20 (|q| - (Int.floor |q| : ℚ)))

/-- JavaScript `v.toString()`: throws a `TypeError` (here `none`) on
`null`, otherwise yields the string form of the value. -/
def jsToString : JSVal → Option String
  | .vnull => none
  | .vnum q => some (jsNumToString q)
  | .vstr s => some s

/-- `Formatter.alphanumeric(s, n)` from `ach-converter.js`:
`w + " ".repeat(n - w.length)` where `w = s.toString()`. -/
def Formatter.alphanumeric (s : JSVal) (n : Nat) : Option String := do
  let w ← jsToString s
  let pad ← jsRepeat ' ' ((n : Int) - (w.length : Int))
  return w ++ pad

/-- `Formatter.numeric(n, width)` from `ach-converter.js`:
`"0".repeat(width - n.toString().length) + n.toString()`. -/
def Formatter.numeric (n : JSVal) (width : Nat) : Option String := do
  let s ← jsToString n
  let pad ← jsRepeat '0' ((width : Int) - (s.length : Int))
  return pad ++ s

/-- The digit string `amount.toFixed(2).toString().replace(".", "")`:
the amount rounded to integer hundredths (ECMA-262 `toFixed` picks the
larger candidate on ties, i.e. rounds half toward positive infinity),
rendered as integer part followed by exactly two fraction digits. -/
def moneyDigits (amount : ℚ) : String :=
  let c : Int := Int.floor (amount * 100 + 1 / 2)
  (if c < 0 then "-" else "")
    ++ natToString (c.natAbs / 100)
    ++ String.mk [digitChar ((c.natAbs / 10) % 10), digitChar (c.natAbs % 10)]

/-- `Formatter.money(amount, width)` from `ach-converter.js`:
`"0".repeat(width - flt.length) + flt` with
`flt = amount.toFixed(2).toString().replace(".", "")`; calling
`.toFixed` on a non-number throws (here `none`). -/
def Formatter.money (amount : JSVal) (width : Nat) : Option String :=
  match amount with
  | .vnum q => do
    let flt := moneyDigits q
    let pad ← jsRepeat '0' ((width : Int) - (flt.length : Int))
    return pad ++ flt
  | _ => none

/-- A `moment` value: a valid calendar date, carried as its year and
1-based day of year (the only observations `format("0YYDDDD")` makes),
or the invalid moment produced by a failed parse. -/
inductive Moment where
  | valid : Nat → Nat → Moment
  | invalid : Moment
deriving DecidableEq

/-- `moment`'s internal zero-padding of a formatting token to width `w`
(never throws, unlike `String.prototype.repeat`). -/
def padZeros (w : Nat) (s : String) : String := zeros (w - s.length) ++ s

/-- `payment_date.format("0YYDDDD")` from `Segment.toString`: the
literal `"0"`, then the token `YY` (last two year digits, zero-padded
to 2) and the token `DDDD` (day of year, zero-padded to 3). On the
invalid moment, `format` returns `"Invalid date"`. -/
def Moment.format0YYDDDD : Moment → String
  | .valid y d => "0" ++ padZeros 2 (natToString (y % 100)) ++ padZeros 3 (natToString d)
  | .invalid => "Invalid date"

/-- A calendar date: a valid moment whose day of year is in `1..366`. -/
def Moment.isCalendarDate : Moment → Bool
  | .valid _ d => 1 ≤ d && d ≤ 366
  | .invalid => false

/-- `ACHHeader` (record type `"A"`): the constructor stores `file_date`
even though `ACHHeader.toString` never reads it. -/
structure ACHHeader where
  type : String
  count : Nat
  client_no : JSVal
  file_no : Nat
  file_date : Moment
  processing_centre : JSVal
  currency_code : JSVal
deriving DecidableEq

/-- `ACHHeader.toString`: type(1), count(9), client_no(10), file_no(4),
processing_centre(5), 20 spaces, currency_code(3). -/
def ACHHeader.toString (h : ACHHeader) : Option String := do
  let f1 ← Formatter.alphanumeric (JSVal.vstr h.type) 1
  let f2 ← Formatter.numeric (JSVal.vnum (h.count : ℚ)) 9
  let f3 ← Formatter.alphanumeric h.client_no 10
  let f4 ← Formatter.alphanumeric (JSVal.vnum (h.file_no : ℚ)) 4
  let f5 ← Formatter.numeric h.processing_centre 5
  let f7 ← Formatter.alphanumeric h.currency_code 3
  return f1 ++ f2 ++ f3 ++ f4 ++ f5 ++ spaces 20 ++ f7

/-- A `Segment` of a Detail record. Every field holds the JavaScript
value the driver passes to the constructor; `payment_date` is the
parsed `moment`. -/
structure Segment where
  transaction_code : JSVal
  amount : JSVal
  payment_date : Moment
  transit : JSVal
  account_no : JSVal
  client_short_name : JSVal
  customer_name : JSVal
  client_long_name : JSVal
  client_no : JSVal
  customer_no : JSVal
  client_sundry_no : JSVal
deriving DecidableEq

/-- `Segment.toString`: transaction_code(3), amount(Money 10),
payment_date (`format("0YYDDDD")`), transit(Numeric 9),
account_no(12), 22+3 zeros, client_short_name(15), customer_name(30),
client_long_name(30), client_no(10), customer_no(19), 9 zeros,
12 spaces, client_sundry_no(15), 22+2+11 spaces; fields are rendered
left to right, the first thrown formatter aborting (`none`). -/
def Segment.toString (sg : Segment) : Option String := do
  let f1 ← Formatter.alphanumeric sg.transaction_code 3
  let f2 ← Formatter.money sg.amount 10
  let f3 := sg.payment_date.format0YYDDDD
  let f4 ← Formatter.numeric sg.transit 9
  let f5 ← Formatter.alphanumeric sg.account_no 12
  let f8 ← Formatter.alphanumeric sg.client_short_name 15
  let f9 ← Formatter.alphanumeric sg.customer_name 30
  let f10 ← Formatter.alphanumeric sg.client_long_name 30
  let f11 ← Formatter.alphanumeric sg.client_no 10
  let f12 ← Formatter.alphanumeric sg.customer_no 19
  let f15 ← Formatter.alphanumeric sg.client_sundry_no 15
  return f1 ++ f2 ++ f3 ++ f4 ++ f5 ++ zeros 22 ++ zeros 3 ++ f8 ++ f9 ++ f10
    ++ f11 ++ f12 ++ zeros 9 ++ spaces 12 ++ f15 ++ spaces 22 ++ spaces 2 ++ spaces 11

/-- `ACHBasicPayment` (a Detail record): the record-type discriminator
(the `mode` argument of `writeACHFile`), the envelope fields, and the
payment segments. -/
structure ACHBasicPayment where
  type : String
  count : Nat
  client_no : JSVal
  file_no : Nat
  segments : List Segment
deriving DecidableEq

/-- `ACHBasicPayment.toString`: type(1), count(9), client_no(10),
file_no(4), then every segment's rendering concatenated. -/
def ACHBasicPayment.toString (b : ACHBasicPayment) : Option String := do
  let f1 ← Formatter.alphanumeric (JSVal.vstr b.type) 1
  let f2 ← Formatter.numeric (JSVal.vnum (b.count : ℚ)) 9
  let f3 ← Formatter.alphanumeric b.client_no 10
  let f4 ← Formatter.alphanumeric (JSVal.vnum (b.file_no : ℚ)) 4
  let segs ← b.segments.mapM Segment.toString
  return f1 ++ f2 ++ f3 ++ f4 ++ String.join segs

/-- `ACHTrailer` (record type `"Z"`). -/
structure ACHTrailer where
  type : String
  count : Nat
  client_no : JSVal
  file_no : Nat
  debit_amount : ℚ
  debit_count : Nat
deriving DecidableEq

/-- `ACHTrailer.toString`: type(1), count(9), client_no(10), file_no(4),
debit_amount(Money 14), debit_count(Numeric 8), 4+8+1396 zeros. -/
def ACHTrailer.toString (t : ACHTrailer) : Option String := do
  let f1 ← Formatter.alphanumeric (JSVal.vstr t.type) 1
  let f2 ← Formatter.numeric (JSVal.vnum (t.count : ℚ)) 9
  let f3 ← Formatter.alphanumeric t.client_no 10
  let f4 ← Formatter.alphanumeric (JSVal.vnum (t.file_no : ℚ)) 4
  let f5 ← Formatter.money (JSVal.vnum t.debit_amount) 14
  let f6 ← Formatter.numeric (JSVal.vnum (t.debit_count : ℚ)) 8
  return f1 ++ f2 ++ f3 ++ f4 ++ f5 ++ f6 ++ zeros 4 ++ zeros 8 ++ zeros 1396

/-- A raw worksheet cell value, before the `cell` helper runs: the
`c.v` of an xlsx cell object, either a number or a string. -/
inductive RawCell where
  | num : ℚ → RawCell
  | str : String → RawCell
deriving DecidableEq

/-- The `cell(row, col)` helper of `writeACHFile`: `null` for an absent
cell, the number unchanged, a string trimmed. -/
def cell : Option RawCell → JSVal
  | none => .vnull
  | some (.num q) => .vnum q
  | some (.str s) => .vstr s.trim

/-- JavaScript falsiness of a `cell` result, as tested by
`if (!customer_no)`: `null`, the number `0` and the empty string are
falsy (`NaN`, which the rational model has no value for, aside). -/
def jsFalsy : JSVal → Bool
  | .vnull => true
  | .vnum q => q == 0
  | .vstr s => s == ""

/-- JavaScript loose equality `suspend == "y"`: true exactly for the
string `"y"` (a number never equals it, since `"y"` coerces to `NaN`,
and `null` is only loosely equal to `undefined`). -/
def jsEqY : JSVal → Bool
  | .vstr s => s == "y"
  | _ => false

/-- `total_debit_amount += amount` on the cell value `amount`: adding a
number adds it, adding `null` coerces it to `0`. (A string `amount`
would switch the JavaScript accumulator to string concatenation; the
model keeps the accumulator numeric, and no claim concerns that case.) -/
def jsAddAmount (t : ℚ) (v : JSVal) : ℚ :=
  match v with
  | .vnum q => t + q
  | _ => t

/-- Gregorian leap-year rule, as used by `moment`. -/
def isLeapYear (y : Nat) : Bool :=
  (y % 4 == 0 && y % 100 != 0) || (y % 400 == 0)

/-- Days in month `m` (1-based) of year `y`. -/
def daysInMonth (y m : Nat) : Nat :=
  if m = 2 then (if isLeapYear y then 29 else 28)
  else if m = 4 ∨ m = 6 ∨ m = 9 ∨ m = 11 then 30
  else 31

/-- The 1-based day of year of calendar day `y-m-d`. -/
def dayOfYearOf (y m d : Nat) : Nat :=
  (List.range (m - 1)).foldl (fun acc i => acc + daysInMonth y (i + 1)) d

/-- Whether a string is one or more decimal digits. -/
def allDigits (s : String) : Bool :=
  decide (s.length > 0) && s.all (fun c => c.isDigit)

/-- Digits-to-number on a digit string. -/
def parseNatDigits (s : String) : Nat :=
  s.foldl (fun a c => a * 10 + (c.toNat - 48)) 0

/-- `moment(payment_date, "YYYY/MM/DD")`: parses a slash-separated
numeric date into a valid moment; every other input (including
`moment`'s lenient fallback parses of differently shaped strings and of
numbers, on which no claim depends) is collapsed to the invalid moment. -/
def momentParse (v : JSVal) : Moment :=
  match v with
  | .vstr s =>
    match s.split (fun c => c = '/') with
    | [ys, ms, ds] =>
      if allDigits ys && allDigits ms && allDigits ds then
        let y := parseNatDigits ys
        let m := parseNatDigits ms
        let d := parseNatDigits ds
        if 1 ≤ m && m ≤ 12 && 1 ≤ d && d ≤ daysInMonth y m then
          Moment.valid y (dayOfYearOf y m d)
        else Moment.invalid
      else Moment.invalid
    | _ => Moment.invalid
  | _ => Moment.invalid

/-- One input row: the raw cells of worksheet columns 1-7 at that row
(customer number, customer name, bank, branch, account, amount,
suspend flag). -/
structure RawRow where
  customer_no : Option RawCell
  customer_name : Option RawCell
  bank : Option RawCell
  branch : Option RawCell
  account : Option RawCell
  amount : Option RawCell
  suspend : Option RawCell
deriving DecidableEq

/-- The worksheet: the six file-level metadata cells (`cell(1,2)` ..
`cell(6,2)`) and the data rows from row 8 onward. Cells past the end of
`rows` are absent, exactly as `worksheet[addr]` is `undefined` there. -/
structure Sheet where
  client_name : Option RawCell
  client_no : Option RawCell
  processing_centre : Option RawCell
  currency_code : Option RawCell
  payment_date : Option RawCell
  transaction_code : Option RawCell
  rows : List RawRow
deriving DecidableEq

/-- The file-level metadata read once in the `Start` phase. -/
structure FileMeta where
  client_name : JSVal
  client_no : JSVal
  transaction_code : JSVal
  payment_moment : Moment
deriving DecidableEq

/-- The mutable loop state of `writeACHFile` at loop exit:
`RECORD_COUNT`, `total_debit_amount`, `total_debit_records`,
`payment_records`. -/
structure LoopResult where
  record_count : Nat
  total_debit_amount : ℚ
  total_debit_records : Nat
  payment_records : List ACHBasicPayment
deriving DecidableEq

/-- The `while (true)` row loop of `writeACHFile`. An empty row list
behaves as the break (all its cells are absent, so `customer_no` is
`null`). The source allocates the `ACHBasicPayment` before the guards
and discards it on break/skip; the allocation has no observable effect,
so the model builds the record on the accepted path only, with the same
`RECORD_COUNT`. `none` models the `RangeError` thrown by
`Formatter.numeric` on an over-wide bank or branch number. -/
def processRows (meta : FileMeta) (mode : String) :
    List RawRow → Nat → ℚ → Nat → List ACHBasicPayment → Option LoopResult
  | [], cnt, tot, n, recs => some ⟨cnt, tot, n, recs⟩
  | row :: rest, cnt, tot, n, recs =>
    let customer_no := cell row.customer_no
    let customer_name := cell row.customer_name
    let bank := cell row.bank
    let branch := cell row.branch
    let account := cell row.account
    let amount := cell row.amount
    let suspend := cell row.suspend
    if jsFalsy customer_no then some ⟨cnt, tot, n, recs⟩
    else if jsEqY suspend then processRows meta mode rest cnt tot n recs
    else do
      let bk ← Formatter.numeric bank 4
      let br ← Formatter.numeric branch 5
      let sg : Segment :=
        ⟨meta.transaction_code, amount, meta.payment_moment,
          JSVal.vstr (bk ++ br), account, JSVal.vstr "", customer_name,
          meta.client_name, meta.client_no, customer_no, JSVal.vstr ""⟩
      let b : ACHBasicPayment := ⟨mode, cnt, meta.client_no, cnt, [sg]⟩
      processRows meta mode rest (cnt + 1) (jsAddAmount tot amount) (n + 1) (recs ++ [b])

/-- The records a conversion run produces, in emission order. -/
structure RunOutput where
  header : ACHHeader
  details : List ACHBasicPayment
  trailer : ACHTrailer
deriving DecidableEq

/-- The `ACHHeader` built by `writeACHFile`: `RECORD_COUNT` is `1`
for both the count and the file number, and `file_date` is the current
clock moment `moment()`. -/
def buildHeader (sheet : Sheet) (now : Moment) : ACHHeader :=
  ⟨"A", 1, cell sheet.client_no, 1, now,
    cell sheet.processing_centre, cell sheet.currency_code⟩

/-- The record-building pass of `writeACHFile(xlFile, outFile, mode)`:
reads the metadata cells, builds the header (incrementing
`RECORD_COUNT` to 2), runs the row loop, and builds the trailer from
the final counter and aggregates. `now` is the clock value the source
obtains from `moment()`. Rendering and file output are the separate
`renderRun` pass. -/
def writeACHFile (sheet : Sheet) (mode : String) (now : Moment) : Option RunOutput := do
  let meta : FileMeta :=
    ⟨cell sheet.client_name, cell sheet.client_no, cell sheet.transaction_code,
      momentParse (cell sheet.payment_date)⟩
  let header := buildHeader sheet now
  let res ← processRows meta mode sheet.rows 2 0 0 []
  let trailer : ACHTrailer :=
    ⟨"Z", res.record_count, cell sheet.client_no, res.record_count,
      res.total_debit_amount, res.total_debit_records⟩
  return ⟨header, res.payment_records, trailer⟩

/-- The rendering-and-writing pass of `writeACHFile`: the header, a
`"\n\n"` separator, every detail record followed by `"\n\n"`, then the
trailer; the first record whose rendering throws aborts the run
(`none`). -/
def renderRun (o : RunOutput) : Option String := do
  let h ← o.header.toString
  let ds ← o.details.mapM ACHBasicPayment.toString
  let t ← o.trailer.toString
  return h ++ "\n\n" ++ String.join (ds.map (fun d => d ++ "\n\n")) ++ t

/-! Concrete data used by witnesses and counterexamples. -/

/-- An accepted row: customer 1001, amount 100, no suspend flag. -/
def wsRow1 : RawRow :=
  ⟨some (.num 1001), some (.str "JOHN DOE"), some (.num 3), some (.num 1012),
    some (.num 12345), some (.num 100), none⟩

/-- A suspended row: customer 1002, amount 50.25, suspend `"y"`. -/
def wsRow2 : RawRow :=
  ⟨some (.num 1002), some (.str "JANE ROE"), some (.num 3), some (.num 1012),
    some (.num 67890), some (.num (5025 / 100)), some (.str "y")⟩

/-- A second accepted row. -/
def wsRow3 : RawRow :=
  ⟨some (.num 1003), some (.str "MARY SUE"), some (.num 10), some (.num 712),
    some (.str "ABC123"), some (.num (25075 / 100)), some (.str "n")⟩

/-- An end-of-data row: empty customer-number cell. -/
def wsRowEnd : RawRow :=
  ⟨some (.str ""), none, none, none, none, some (.num 0), none⟩

/-- An end-of-data row by absence: no customer-number cell at all. -/
def wsRowAbsent : RawRow := ⟨none, none, none, none, none, none, none⟩

/-- An end-of-data row whose customer-number cell holds the number 0. -/
def wsRowZero : RawRow :=
  ⟨some (.num 0), some (.str "ZOE NIL"), some (.num 3), some (.num 1012),
    some (.num 11111), some (.num 10), none⟩

/-- A worksheet with one accepted row, one suspended row and an
end-of-data row. -/
def wsSheet : Sheet :=
  ⟨some (.str "ACME Inc"), some (.str "12345"), some (.num 330),
    some (.str "CAD"), some (.str "2024/01/15"), some (.str "430"),
    [wsRow1, wsRow2, wsRowEnd]⟩

/-- A worksheet with two accepted rows and a suspended row between. -/
def wsSheet2 : Sheet :=
  ⟨some (.str "ACME Inc"), some (.str "12345"), some (.num 330),
    some (.str "CAD"), some (.str "2024/01/15"), some (.str "430"),
    [wsRow1, wsRow2, wsRow3, wsRowEnd]⟩

/-- The metadata `writeACHFile` reads from `wsSheet`. -/
def wsMeta : FileMeta :=
  ⟨JSVal.vstr "ACME Inc", JSVal.vstr "12345", JSVal.vstr "430",
    Moment.valid 2024 15⟩

/-- A clock moment for the runs. -/
def wsNow : Moment := Moment.valid 2025 284

/-! String-length helper lemmas. -/

theorem length_zeros (n : Nat) : (zeros n).length = n := by
  simp [zeros, String.length_mk]

theorem length_spaces (n : Nat) : (spaces n).length = n := by
  simp [spaces, String.length_mk]

theorem jsRepeat_eq_some {c : Char} {k : Int} {p : String}
    (h : jsRepeat c k = some p) : 0 ≤ k ∧ p.length = k.toNat := by
  unfold jsRepeat at h
  split at h
  · exact absurd h (by simp)
  · next hk =>
    injection h with h
    subst h
    exact ⟨by omega, by simp [String.length_mk]⟩

theorem length_foldl_append (l : List String) :
    ∀ acc : String, (l.foldl (fun r s => r ++ s) acc).length
      = acc.length + (l.map String.length).sum := by
  induction l with
  | nil => intro acc; simp
  | cons a t ih =>
    intro acc
    simp [List.foldl_cons, ih, String.length_append]
    omega

theorem length_join (l : List String) :
    (String.join l).length = (l.map String.length).sum := by
  simpa [String.join] using length_foldl_append l ""

/-! Width lemmas for the three `Formatter` functions: a returned string
has exactly the requested width. -/

theorem alphanumeric_length {v : JSVal} {n : Nat} {s : String}
    (h : Formatter.alphanumeric v n = some s) : s.length = n := by
  simp only [Formatter.alphanumeric, bind, Option.bind_eq_some, Option.pure_def,
    Option.some.injEq] at h
  obtain ⟨w, hw, p, hp, hs⟩ := h
  obtain ⟨hk, hlen⟩ := jsRepeat_eq_some hp
  subst hs
  rw [String.length_append, hlen]
  omega

theorem numeric_length {v : JSVal} {n : Nat} {s : String}
    (h : Formatter.numeric v n = some s) : s.length = n := by
  simp only [Formatter.numeric, bind, Option.bind_eq_some, Option.pure_def,
    Option.some.injEq] at h
  obtain ⟨w, hw, p, hp, hs⟩ := h
  obtain ⟨hk, hlen⟩ := jsRepeat_eq_some hp
  subst hs
  rw [String.length_append, hlen]
  omega

theorem money_length {v : JSVal} {n : Nat} {s : String}
    (h : Formatter.money v n = some s) : s.length = n := by
  match v with
  | .vnull => exact absurd h (by simp [Formatter.money])
  | .vstr w => exact absurd h (by simp [Formatter.money])
  | .vnum q =>
    simp only [Formatter.money, bind, Option.bind_eq_some, Option.pure_def,
      Option.some.injEq] at h
    obtain ⟨p, hp, hs⟩ := h
    obtain ⟨hk, hlen⟩ := jsRepeat_eq_some hp
    subst hs
    rw [String.length_append, hlen]
    omega

/-! Digit-count bounds for the decimal printer. -/

theorem natToCharsAux_length_le :
    ∀ (f n k : Nat), n < f → n < 10 ^ k → 0 < k →
      (natToCharsAux f n).length ≤ k := by
  intro f
  induction f with
  | zero => intro n k h; omega
  | succ f ih =>
    intro n k hnf hnk hk
    unfold natToCharsAux
    split
    · simpa using hk
    · next h10 =>
      have hten : 10 ≤ n := by omega
      have hk2 : 2 ≤ k := by
        by_contra hlt
        have hk1 : k = 1 := by omega
        rw [hk1, pow_one] at hnk
        omega
      have hpow : 10 ^ (k - 1) * 10 = 10 ^ k := by
        rw [← pow_succ]
        congr 1
        omega
      have hdiv : n / 10 < 10 ^ (k - 1) := by
        rw [Nat.div_lt_iff_lt_mul (by norm_num)]
        omega
      have hless : n / 10 < f := by
        have := Nat.div_lt_self (by omega : 0 < n) (by norm_num : 1 < 10)
        omega
      have := ih (n / 10) (k - 1) hless hdiv (by omega)
      simp only [List.length_append, List.length_singleton]
      omega

theorem natToString_length_le {n k : Nat} (h : n < 10 ^ k) (hk : 0 < k) :
    (natToString n).length ≤ k := by
  unfold natToString
  rw [String.length_mk]
  exact natToCharsAux_length_le (n + 1) n k (by omega) h hk

theorem padZeros_length {w : Nat} {s : String} (h : s.length ≤ w) :
    (padZeros w s).length = w := by
  rw [padZeros, String.length_append, length_zeros]
  omega

/-- On a calendar date, the `"0YYDDDD"` rendering is 1 (century flag)
+ 2 (year) + 3 (day of year) = 6 characters. -/
theorem format0YYDDDD_length {m : Moment} (h : m.isCalendarDate = true) :
    m.format0YYDDDD.length = 6 := by
  cases m with
  | invalid => exact absurd h (by simp [Moment.isCalendarDate])
  | valid y d =>
    simp only [Moment.isCalendarDate, Bool.and_eq_true, decide_eq_true_eq] at h
    have hy : (natToString (y % 100)).length ≤ 2 :=
      natToString_length_le (by have := Nat.mod_lt y (show 0 < 100 by norm_num); norm_num; omega)
        (by norm_num)
    have hd : (natToString d).length ≤ 3 :=
      natToString_length_le (by norm_num; omega) (by norm_num)
    rw [Moment.format0YYDDDD, String.length_append, String.length_append,
      padZeros_length hy, padZeros_length hd]
    rfl

/-- A successfully rendered segment whose payment date is a calendar
date is exactly 240 characters: 3+10+6+9+12+22+3+15+30+30+10+19+9+12+15+22+2+11. -/
theorem segment_toString_length {sg : Segment} {s : String}
    (hd : sg.payment_date.isCalendarDate = true)
    (h : Segment.toString sg = some s) : s.length = 240 := by
  simp only [Segment.toString, bind, Option.bind_eq_some, Option.pure_def,
    Option.some.injEq] at h
  obtain ⟨f1, h1, f2, h2, f4, h4, f5, h5, f8, h8, f9, h9, f10, h10, f11, h11,
    f12, h12, f15, h15, hs⟩ := h
  subst hs
  simp only [String.length_append, alphanumeric_length h1, money_length h2,
    format0YYDDDD_length hd, numeric_length h4, alphanumeric_length h5,
    alphanumeric_length h8, alphanumeric_length h9, alphanumeric_length h10,
    alphanumeric_length h11, alphanumeric_length h12, alphanumeric_length h15,
    length_zeros, length_spaces]

/-- A successful `mapM Segment.toString` over calendar-dated segments
yields strings of 240 characters each. -/
theorem mapM_segment_lengths :
    ∀ (l : List Segment) (out : List String),
      (∀ sg ∈ l, sg.payment_date.isCalendarDate = true) →
      l.mapM Segment.toString = some out →
      (out.map String.length).sum = 240 * l.length := by
  intro l
  induction l with
  | nil =>
    intro out _ h
    simp only [List.mapM_nil, Option.pure_def, Option.some.injEq] at h
    subst h
    simp
  | cons a t ih =>
    intro out hcal h
    rw [List.mapM_cons] at h
    simp only [bind, Option.bind_eq_some, Option.pure_def, Option.some.injEq] at h
    obtain ⟨sa, hsa, st, hst, hout⟩ := h
    subst hout
    have hlen := segment_toString_length (hcal a (by simp)) hsa
    have := ih st (fun sg hsg => hcal sg (by simp [hsg])) hst
    simp [hlen, this, List.length_cons]
    ring

/-- If some segment of a list fails to render, the whole `mapM` fails. -/
theorem mapM_segment_none {l : List Segment} {sg : Segment}
    (hmem : sg ∈ l) (hsg : Segment.toString sg = none) :
    l.mapM Segment.toString = none := by
  induction l with
  | nil => cases hmem
  | cons a t ih =>
    rw [List.mapM_cons]
    rcases List.mem_cons.mp hmem with h | h
    · subst h
      simp [hsg, bind]
    · cases ha : Segment.toString a with
      | none => simp [bind]
      | some sa =>
        simp only [ha, ih h]
        rfl

/-- If some detail record of a run fails to render, the whole
`mapM ACHBasicPayment.toString` inside `renderRun` fails. -/
theorem mapM_detail_none {l : List ACHBasicPayment} {b : ACHBasicPayment}
    (hmem : b ∈ l) (hb : ACHBasicPayment.toString b = none) :
    l.mapM ACHBasicPayment.toString = none := by
  induction l with
  | nil => cases hmem
  | cons a t ih =>
    rw [List.mapM_cons]
    rcases List.mem_cons.mp hmem with h | h
    · subst h
      simp [hb, bind]
    · cases ha : ACHBasicPayment.toString a with
      | none => simp [bind]
      | some sa =>
        simp only [ha, ih h]
        rfl

/-- The single segment the run builds from `wsRow1` under `wsSheet`'s
metadata. -/
def wsSegment : Segment :=
  ⟨JSVal.vstr "430", JSVal.vnum 100, Moment.valid 2024 15,
    JSVal.vstr "000301012", JSVal.vnum 12345, JSVal.vstr "",
    JSVal.vstr "JOHN DOE", JSVal.vstr "ACME Inc", JSVal.vstr "12345",
    JSVal.vnum 1001, JSVal.vstr ""⟩

/-- A detail record with the three-character record mode `"PAD"`. -/
def wsDetailPad : ACHBasicPayment := ⟨"PAD", 2, JSVal.vstr "12345", 2, [wsSegment]⟩

/-- A detail record with a one-character record mode. -/
def wsDetailC : ACHBasicPayment := ⟨"C", 2, JSVal.vstr "12345", 2, [wsSegment]⟩

set_option maxRecDepth 100000 in
/-- Claim C1, counterexample. The claim says every accepted row's Detail
record renders to exactly 265 characters for record modes `"PAD"` and
`"PDS"`. On the concrete worksheet `wsSheet` (one accepted row), with
mode `"PAD"` the Detail record fails to render at all (the 1-wide type
field overflows and `" ".repeat` throws), and with a one-character mode
the rendering is 264 characters, not 265 (the payment-date field is 6
characters, not 7). -/
theorem C1_counterexample :
    ((writeACHFile wsSheet "PAD" wsNow).map
        (fun o => o.details.map (fun d => (ACHBasicPayment.toString d).map String.length)))
      = some [none] ∧
    ((writeACHFile wsSheet "C" wsNow).map
        (fun o => o.details.map (fun d => (ACHBasicPayment.toString d).map String.length)))
      = some [some 264] := by
  exact ⟨by with_unfolding_all rfl, by with_unfolding_all rfl⟩

/-- Claim C1 (amended): rendering a Detail record whose record mode is
`"PAD"` or `"PDS"` always fails (the 1-character type field overflows);
whenever a Detail record's rendering does succeed and every segment's
payment date is a calendar date, the rendered text's length is exactly
the sum of the declared field widths, namely 24 for the envelope
(1+9+10+4) plus 240 per Payment segment
(3+10+6+9+12+22+3+15+30+30+10+19+9+12+15+22+2+11) — 264 characters for
a single-segment Detail record. -/
theorem C1_detail_record_length (b : ACHBasicPayment) :
    ((b.type = "PAD" ∨ b.type = "PDS") → ACHBasicPayment.toString b = none) ∧
    (∀ s : String, (∀ sg ∈ b.segments, sg.payment_date.isCalendarDate = true) →
      ACHBasicPayment.toString b = some s →
      s.length = 24 + 240 * b.segments.length) := by
  constructor
  · rintro (h | h) <;> (simp only [ACHBasicPayment.toString, h]; rfl)
  · intro s hcal h
    simp only [ACHBasicPayment.toString, bind, Option.bind_eq_some, Option.pure_def,
      Option.some.injEq] at h
    obtain ⟨f1, h1, f2, h2, f3, h3, f4, h4, segs, hsegs, hs⟩ := h
    subst hs
    simp only [String.length_append, alphanumeric_length h1, numeric_length h2,
      alphanumeric_length h3, alphanumeric_length h4, length_join,
      mapM_segment_lengths b.segments segs hcal hsegs]

/-- Claim C1, witness: the amended theorem applied to the concrete
records `wsDetailPad` (rendering fails) and `wsDetailC` (renders to 264
characters). -/
theorem C1_witness :
    ACHBasicPayment.toString wsDetailPad = none ∧
    (ACHBasicPayment.toString wsDetailC).map String.length = some 264 := by
  refine ⟨(C1_detail_record_length wsDetailPad).1 (Or.inl rfl), ?_⟩
  have hs : (ACHBasicPayment.toString wsDetailC).isSome = true := by
    with_unfolding_all rfl
  have h : ACHBasicPayment.toString wsDetailC
      = some ((ACHBasicPayment.toString wsDetailC).get hs) := (Option.some_get hs).symm
  have hl := (C1_detail_record_length wsDetailC).2 _ (by decide) h
  rw [h, Option.map_some', hl]
  rfl

/-- Claim C2, counterexample. The claim says the rendered payment-date
field is exactly 7 characters; on the calendar date with year 2023 and
day of year 5 the rendering is `"023005"`, which has 6 characters. -/
theorem C2_counterexample :
    (Moment.valid 2023 5).isCalendarDate = true ∧
    (Moment.valid 2023 5).format0YYDDDD = "023005" ∧
    ((Moment.valid 2023 5).format0YYDDDD).length ≠ 7 := by
  refine ⟨rfl, by decide, by decide⟩

/-- Claim C2 (amended): for every calendar date, the rendered
payment-date field of a Detail record is exactly 6 characters — a
1-digit century flag, a 2-digit year, and a 3-digit day-of-year. -/
theorem C2_payment_date_field (m : Moment) (h : m.isCalendarDate = true) :
    m.format0YYDDDD.length = 6 ∧
    ∃ yy ddd : String, m.format0YYDDDD = "0" ++ yy ++ ddd
      ∧ yy.length = 2 ∧ ddd.length = 3 := by
  refine ⟨format0YYDDDD_length h, ?_⟩
  cases m with
  | invalid => exact absurd h (by simp [Moment.isCalendarDate])
  | valid y d =>
    simp only [Moment.isCalendarDate, Bool.and_eq_true, decide_eq_true_eq] at h
    refine ⟨padZeros 2 (natToString (y % 100)), padZeros 3 (natToString d),
      by rw [Moment.format0YYDDDD, String.append_assoc], ?_, ?_⟩
    · exact padZeros_length (natToString_length_le
        (by have := Nat.mod_lt y (show 0 < 100 by norm_num); norm_num; omega) (by norm_num))
    · exact padZeros_length (natToString_length_le (by norm_num; omega) (by norm_num))

/-- Claim C2, witness: the amended theorem applied to the last day of a
leap year. -/
theorem C2_witness :
    (Moment.valid 2024 366).isCalendarDate = true ∧
    ((Moment.valid 2024 366).format0YYDDDD).length = 6 :=
  ⟨by decide, (C2_payment_date_field (Moment.valid 2024 366) (by decide)).1⟩

/-- Claim C5, counterexample. The claim says an over-wide value is
returned unpadded (the raw string); in fact `" ".repeat` receives a
negative count and throws, so formatting returns no string at all. -/
theorem C5_counterexample :
    Formatter.alphanumeric (JSVal.vstr "ABCDEF") 4 ≠ some "ABCDEF" ∧
    Formatter.alphanumeric (JSVal.vstr "ABCDEF") 4 = none := by
  exact ⟨by decide, rfl⟩

/-- Claim C5 (amended): for every string value whose length exceeds the
declared field width, Alphanumeric formatting performs no explicit
overflow check, but the space-padding `" ".repeat(n - w.length)` call
receives a negative count and throws a `RangeError`: formatting fails
(returns `none`) instead of returning the value unpadded, so no record
of incorrect total length is produced by it. -/
theorem C5_alphanumeric_overflow (s : String) (n : Nat) (h : n < s.length) :
    Formatter.alphanumeric (JSVal.vstr s) n = none := by
  simp [Formatter.alphanumeric, jsToString, jsRepeat, h]

/-- Claim C5, witness: the amended theorem applied to a 7-character
string and width 5. -/
theorem C5_witness : Formatter.alphanumeric (JSVal.vstr "TOOLONG") 5 = none :=
  C5_alphanumeric_overflow "TOOLONG" 5 (by decide)

/-- A run output containing a detail record that fails to render, used
to witness that a rendering failure aborts the whole rendering pass. -/
def wsRunBad : RunOutput :=
  ⟨buildHeader wsSheet wsNow, [wsDetailPad],
    ⟨"Z", 3, JSVal.vstr "12345", 3, 100, 1⟩⟩

/-- Claim C6: for every field value whose rendered representation is
longer than the declared width, the `Formatter` field rendering fails
(the thrown `RangeError` playing the role of the spec's
`FieldOverflow`) instead of returning a string; such a failure aborts
the conversion run's rendering pass; and every string a `Formatter`
function does return has exactly the declared width. (The payment-date
field is rendered by `moment`, not by the `Formatter`, and is covered
by C2.) -/
theorem C6_field_overflow_and_exact_width :
    (∀ (v : JSVal) (n : Nat) (w : String), jsToString v = some w → n < w.length →
      Formatter.alphanumeric v n = none ∧ Formatter.numeric v n = none) ∧
    (∀ (q : ℚ) (n : Nat), n < (moneyDigits q).length →
      Formatter.money (JSVal.vnum q) n = none) ∧
    (∀ (v : JSVal) (n : Nat) (s : String),
      Formatter.alphanumeric v n = some s → s.length = n) ∧
    (∀ (v : JSVal) (n : Nat) (s : String),
      Formatter.numeric v n = some s → s.length = n) ∧
    (∀ (v : JSVal) (n : Nat) (s : String),
      Formatter.money v n = some s → s.length = n) ∧
    (∀ (o : RunOutput) (b : ACHBasicPayment), b ∈ o.details →
      ACHBasicPayment.toString b = none → renderRun o = none) := by
  refine ⟨?_, ?_, ?_, ?_, ?_, ?_⟩
  · intro v n w hw hlt
    constructor
    · simp [Formatter.alphanumeric, hw, jsRepeat, hlt]
    · simp [Formatter.numeric, hw, jsRepeat, hlt]
  · intro q n hlt
    simp [Formatter.money, jsRepeat, hlt]
  · intro v n s h
    exact alphanumeric_length h
  · intro v n s h
    exact numeric_length h
  · intro v n s h
    exact money_length h
  · intro o b hmem hb
    simp only [renderRun, mapM_detail_none hmem hb]
    cases o.header.toString <;> rfl

/-- Claim C6, witness: the theorem applied to concrete over-wide and
fitting values of each formatter, and to the run output `wsRunBad`,
whose `"PAD"`-typed detail record fails to render. -/
theorem C6_witness :
    Formatter.alphanumeric (JSVal.vstr "WIDECHARS") 8 = none ∧
    Formatter.numeric (JSVal.vnum 123456) 5 = none ∧
    Formatter.money (JSVal.vnum 12345678) 9 = none ∧
    "AB   ".length = 5 ∧
    "00042".length = 5 ∧
    "0000010000".length = 10 ∧
    renderRun wsRunBad = none := by
  refine ⟨?_, ?_, ?_, ?_, ?_, ?_, ?_⟩
  · exact (C6_field_overflow_and_exact_width.1 (JSVal.vstr "WIDECHARS") 8 "WIDECHARS"
      rfl (by decide)).1
  · exact (C6_field_overflow_and_exact_width.1 (JSVal.vnum 123456) 5 "123456"
      rfl (by decide)).2
  · exact C6_field_overflow_and_exact_width.2.1 12345678 9 (by with_unfolding_all decide)
  · exact C6_field_overflow_and_exact_width.2.2.1 (JSVal.vstr "AB") 5 "AB   " rfl
  · exact C6_field_overflow_and_exact_width.2.2.2.1 (JSVal.vnum 42) 5 "00042" rfl
  · exact C6_field_overflow_and_exact_width.2.2.2.2.1 (JSVal.vnum 100) 10 "0000010000"
      (by with_unfolding_all rfl)
  · exact C6_field_overflow_and_exact_width.2.2.2.2.2 wsRunBad wsDetailPad (by decide)
      (by with_unfolding_all rfl)

/-- Loop invariant of the row loop: if `RECORD_COUNT` exceeds the
records built so far by exactly 2 and the records built so far carry
counts `2, 3, ...`, the same holds of the loop's final state. -/
theorem processRows_invariant (meta : FileMeta) (mode : String) :
    ∀ (rows : List RawRow) (cnt : Nat) (tot : ℚ) (n : Nat)
      (recs : List ACHBasicPayment) (res : LoopResult),
      processRows meta mode rows cnt tot n recs = some res →
      cnt = 2 + recs.length →
      (∀ i (h : i < recs.length), (recs[i]).count = 2 + i) →
      res.record_count = 2 + res.payment_records.length ∧
      (∀ i (h : i < res.payment_records.length),
        (res.payment_records[i]).count = 2 + i) := by
  intro rows
  induction rows with
  | nil =>
    intro cnt tot n recs res h hc hi
    simp only [processRows, Option.some.injEq] at h
    subst h
    exact ⟨hc, hi⟩
  | cons row rest ih =>
    intro cnt tot n recs res h hc hi
    simp only [processRows] at h
    by_cases h1 : jsFalsy (cell row.customer_no)
    · rw [if_pos h1] at h
      simp only [Option.some.injEq] at h
      subst h
      exact ⟨hc, hi⟩
    · rw [if_neg h1] at h
      by_cases h2 : jsEqY (cell row.suspend)
      · rw [if_pos h2] at h
        exact ih _ _ _ _ _ h hc hi
      · rw [if_neg h2] at h
        simp only [bind, Option.bind_eq_some] at h
        obtain ⟨bk, hbk, br, hbr, h⟩ := h
        refine ih _ _ _ _ _ h ?_ ?_
        · simp only [List.length_append, List.length_singleton]
          omega
        · intro i hilen
          rcases Nat.lt_or_ge i recs.length with hlt | hge
          · rw [List.getElem_append_left hlt]
            exact hi i hlt
          · have hieq : i = recs.length := by
              simp only [List.length_append, List.length_singleton] at hilen
              omega
            subst hieq
            rw [List.getElem_append_right hge]
            simpa using hc

/-- Claim C3: in every conversion run the Header's sequence number is
1, the `i`-th accepted Detail record's sequence number is `2 + i`
(so consecutive emitted records differ by exactly 1), and the Trailer's
sequence number is `2 +` the number of accepted rows (each accepted row
contributes exactly one detail record). -/
theorem C3_sequence_numbers (sheet : Sheet) (mode : String) (now : Moment)
    (o : RunOutput) (h : writeACHFile sheet mode now = some o) :
    o.header.count = 1 ∧
    (∀ i (hi : i < o.details.length), (o.details[i]).count = 2 + i) ∧
    o.trailer.count = 2 + o.details.length := by
  simp only [writeACHFile, bind, Option.bind_eq_some, Option.pure_def,
    Option.some.injEq] at h
  obtain ⟨res, hres, ho⟩ := h
  subst ho
  have hinv := processRows_invariant _ _ sheet.rows 2 0 0 [] res hres (by simp)
    (by intro i hi; simp at hi)
  exact ⟨rfl, hinv.2, hinv.1⟩

/-- Claim C3, witness: the theorem applied to the run on `wsSheet2`
(two accepted rows, one suspended row): the header count is 1 and the
trailer count is 4. -/
theorem C3_witness :
    (writeACHFile wsSheet2 "C" wsNow).map (fun o => o.header.count) = some 1 ∧
    (writeACHFile wsSheet2 "C" wsNow).map (fun o => o.trailer.count) = some 4 ∧
    (writeACHFile wsSheet2 "C" wsNow).map (fun o => o.details.map (fun d => d.count))
      = some [2, 3] := by
  have hs : (writeACHFile wsSheet2 "C" wsNow).isSome = true := by
    with_unfolding_all rfl
  have h : writeACHFile wsSheet2 "C" wsNow
      = some ((writeACHFile wsSheet2 "C" wsNow).get hs) := (Option.some_get hs).symm
  obtain ⟨h1, h2, h3⟩ := C3_sequence_numbers wsSheet2 "C" wsNow _ h
  refine ⟨?_, ?_, ?_⟩
  · rw [h, Option.map_some', h1]
  · rw [h, Option.map_some', h3]
    with_unfolding_all rfl
  · rw [h, Option.map_some']
    with_unfolding_all rfl

/-- A row with no customer-number cell but with the suspend flag
`"y"`. -/
def wsRowSuspEnd : RawRow := ⟨none, none, none, none, none, none, some (.str "y")⟩

/-- A worksheet whose first row is suspended and lacks a customer
number; an accepted-looking row follows it. -/
def wsSheetSuspFirst : Sheet :=
  ⟨some (.str "ACME Inc"), some (.str "12345"), some (.num 330),
    some (.str "CAD"), some (.str "2024/01/15"), some (.str "430"),
    [wsRowSuspEnd, wsRow1]⟩

/-- A worksheet holding only the accepted row `wsRow1`. -/
def wsSheetRow1Only : Sheet :=
  ⟨some (.str "ACME Inc"), some (.str "12345"), some (.num 330),
    some (.str "CAD"), some (.str "2024/01/15"), some (.str "430"),
    [wsRow1]⟩

/-- A worksheet whose first row has an empty customer-number cell. -/
def wsSheetEndFirst : Sheet :=
  ⟨some (.str "ACME Inc"), some (.str "12345"), some (.num 330),
    some (.str "CAD"), some (.str "2024/01/15"), some (.str "430"),
    [wsRowEnd, wsRow1]⟩

/-- `wsSheet` with a different payment date cell, for the header
independence witness. -/
def wsSheetOtherDate : Sheet :=
  ⟨some (.str "OTHER Co"), some (.str "12345"), some (.num 330),
    some (.str "CAD"), some (.str "1999/12/31"), some (.str "200"),
    [wsRow1, wsRow3]⟩

/-- A second clock moment. -/
def wsNow2 : Moment := Moment.valid 1999 365

/-- Claim C7, counterexample. The claim says that a row whose suspend
flag is `"y"` always lets conversion continue with the next row. On the
worksheet whose first row has suspend `"y"` but no customer-number
cell, the run stops at that row: the following accepted row `wsRow1`
(which alone yields one Detail record) is never processed and no
Detail record is produced at all. -/
theorem C7_counterexample :
    jsEqY (cell wsRowSuspEnd.suspend) = true ∧
    (writeACHFile wsSheetSuspFirst "C" wsNow).map (fun o => o.details.length)
      = some 0 ∧
    (writeACHFile wsSheetRow1Only "C" wsNow).map (fun o => o.details.length)
      = some 1 := by
  exact ⟨by with_unfolding_all rfl, by with_unfolding_all rfl, by with_unfolding_all rfl⟩

/-- Claim C7 (amended): for every input row whose suspend flag is the
literal string `"y"` and whose customer-number cell is not falsy (the
end-of-data check runs first), the row produces no Detail record, the
running total amount, record count and sequence counter are unchanged,
and conversion continues with the next row. -/
theorem C7_suspended_row_skipped (meta : FileMeta) (mode : String) (row : RawRow)
    (rest : List RawRow) (cnt : Nat) (tot : ℚ) (n : Nat)
    (recs : List ACHBasicPayment)
    (hy : jsEqY (cell row.suspend) = true)
    (hc : jsFalsy (cell row.customer_no) = false) :
    processRows meta mode (row :: rest) cnt tot n recs
      = processRows meta mode rest cnt tot n recs := by
  simp only [processRows]
  rw [if_neg (by simp [hc]), if_pos hy]

/-- Claim C7, witness: the amended theorem applied to the suspended row
`wsRow2`: prepending it to the worklist leaves the loop's behaviour,
state and records untouched. -/
theorem C7_witness :
    processRows wsMeta "C" [wsRow2, wsRow1] 2 0 0 []
      = processRows wsMeta "C" [wsRow1] 2 0 0 [] :=
  C7_suspended_row_skipped wsMeta "C" wsRow2 [wsRow1] 2 0 0 []
    (by with_unfolding_all rfl) (by with_unfolding_all rfl)

/-- Claim C8: a row whose customer-number cell is absent (`null`) or
empty terminates row consumption: the loop returns its current state
unchanged (so no Detail record is built for the row and the remaining
rows are never read), and when such a row comes first the run emits
just the Header and a Trailer built from the initial state. -/
theorem C8_end_of_data (row : RawRow)
    (h : cell row.customer_no = JSVal.vnull ∨ cell row.customer_no = JSVal.vstr "") :
    (∀ (meta : FileMeta) (mode : String) (rest : List RawRow) (cnt : Nat)
      (tot : ℚ) (n : Nat) (recs : List ACHBasicPayment),
      processRows meta mode (row :: rest) cnt tot n recs = some ⟨cnt, tot, n, recs⟩) ∧
    (∀ (sheet : Sheet) (mode : String) (now : Moment) (rest : List RawRow),
      sheet.rows = row :: rest →
      writeACHFile sheet mode now
        = some ⟨buildHeader sheet now, [],
            ⟨"Z", 2, cell sheet.client_no, 2, 0, 0⟩⟩) := by
  have hf : jsFalsy (cell row.customer_no) = true := by
    rcases h with h | h <;> simp [h, jsFalsy]
  have hstep : ∀ (meta : FileMeta) (mode : String) (rest : List RawRow) (cnt : Nat)
      (tot : ℚ) (n : Nat) (recs : List ACHBasicPayment),
      processRows meta mode (row :: rest) cnt tot n recs = some ⟨cnt, tot, n, recs⟩ := by
    intro meta mode rest cnt tot n recs
    simp only [processRows]
    rw [if_pos hf]
  refine ⟨hstep, ?_⟩
  intro sheet mode now rest hrows
  simp only [writeACHFile, hrows, hstep]
  rfl

/-- Claim C8, witness: the theorem applied to the empty-customer row
`wsRowEnd` in front of the accepted row `wsRow1`, and to the worksheet
`wsSheetEndFirst` whose first row is `wsRowEnd`. -/
theorem C8_witness :
    processRows wsMeta "C" [wsRowEnd, wsRow1] 2 0 0 [] = some ⟨2, 0, 0, []⟩ ∧
    writeACHFile wsSheetEndFirst "C" wsNow
      = some ⟨buildHeader wsSheetEndFirst wsNow, [],
          ⟨"Z", 2, cell wsSheetEndFirst.client_no, 2, 0, 0⟩⟩ := by
  have h := C8_end_of_data wsRowEnd (Or.inr (by with_unfolding_all rfl))
  exact ⟨h.1 wsMeta "C" [wsRow1] 2 0 0 [], h.2 wsSheetEndFirst "C" wsNow [wsRow1] rfl⟩

/-- Claim C9: a row whose customer-number cell holds the number 0 —
a present, non-empty cell — terminates row consumption exactly as an
absent or empty cell does: the loop returns its current state, so the
row and all rows after it are excluded, and the run then emits the
Trailer from that state. -/
theorem C9_zero_customer_terminates (meta : FileMeta) (mode : String)
    (row : RawRow) (rest : List RawRow) (cnt : Nat) (tot : ℚ) (n : Nat)
    (recs : List ACHBasicPayment)
    (h : row.customer_no = some (RawCell.num 0)) :
    cell row.customer_no = JSVal.vnum 0 ∧
    processRows meta mode (row :: rest) cnt tot n recs = some ⟨cnt, tot, n, recs⟩ := by
  have hc : cell row.customer_no = JSVal.vnum 0 := by rw [h]; rfl
  refine ⟨hc, ?_⟩
  simp only [processRows]
  rw [if_pos (by simp [jsFalsy, hc])]

/-- Claim C9, witness: the theorem applied to `wsRowZero` (customer
number 0) in front of the accepted row `wsRow1`. -/
theorem C9_witness :
    cell wsRowZero.customer_no = JSVal.vnum 0 ∧
    processRows wsMeta "C" [wsRowZero, wsRow1] 2 0 0 [] = some ⟨2, 0, 0, []⟩ :=
  C9_zero_customer_terminates wsMeta "C" wsRowZero [wsRow1] 2 0 0 [] rfl

/-- Claim C10: the rendered Header is independent of the file date and
of the clock: for any two runs whose client number, processing centre
and currency code cells agree, the Headers built by the runs render
identically, whatever their payment-date cells and clock moments are —
the stored `file_date` is never emitted. (The header `writeACHFile`
emits is exactly `buildHeader sheet now`.) -/
theorem C10_header_independent_of_date (s1 s2 : Sheet) (mode1 mode2 : String)
    (now1 now2 : Moment)
    (hcl : cell s1.client_no = cell s2.client_no)
    (hpc : cell s1.processing_centre = cell s2.processing_centre)
    (hcc : cell s1.currency_code = cell s2.currency_code) :
    (buildHeader s1 now1).toString = (buildHeader s2 now2).toString ∧
    (∀ o : RunOutput, writeACHFile s1 mode1 now1 = some o →
      o.header = buildHeader s1 now1) ∧
    (∀ o : RunOutput, writeACHFile s2 mode2 now2 = some o →
      o.header = buildHeader s2 now2) := by
  refine ⟨?_, ?_, ?_⟩
  · simp only [ACHHeader.toString, buildHeader, hcl, hpc, hcc]
  · intro o h
    simp only [writeACHFile, bind, Option.bind_eq_some, Option.pure_def,
      Option.some.injEq] at h
    obtain ⟨res, hres, ho⟩ := h
    rw [← ho]
  · intro o h
    simp only [writeACHFile, bind, Option.bind_eq_some, Option.pure_def,
      Option.some.injEq] at h
    obtain ⟨res, hres, ho⟩ := h
    rw [← ho]

/-- Claim C10, witness: the theorem applied to `wsSheet` and
`wsSheetOtherDate`, which differ in their payment-date cells (and in
other non-header data), under different clock moments. -/
theorem C10_witness :
    (buildHeader wsSheet wsNow).toString = (buildHeader wsSheetOtherDate wsNow2).toString :=
  (C10_header_independent_of_date wsSheet wsSheetOtherDate "C" "D" wsNow wsNow2
    rfl rfl rfl).1

end ACH
